import Mathlib

/-!
Shallow embedding of the LED-detection pipeline of
`src/packages/led_detection/src/led_detector_node.py` (class `LEDDetectorNode`).

Conventions:
* float timestamps and normalized crop coordinates are modelled as `ℚ`;
* a single-channel image is a list of rows of pixel values (`ℕ`, uint8 range);
* a stacked frame volume (height × width × num_frames, as produced in
  `process_and_publish`) is a list of rows, each row a list of columns, each
  column the per-frame pixel sequence;
* the `LEDDetector` class (module `led_detection.LED_detector`) is imported by
  the node but its source is not part of this repository snapshot; its two
  entry points used here (`find_blobs`, `interpret_signal`) are modelled from
  the specification, with the frequency-analysis core kept abstract as a
  deterministic strategy parameter.
-/

namespace LEDNode

/-- A single-channel image: rows of pixel values. -/
abbrev Image : Type := List (List Nat)

/-- A stacked frame volume: rows × columns × per-frame samples. -/
abbrev Volume : Type := List (List (List Nat))

/-- A buffered frame, as stored by `camera_callback` in `self.data`:
a dict with keys `timestamp` and `rgb`. -/
structure Frame where
  timestamp : ℚ
  rgb : Image
deriving DecidableEq, Repr

/-- An incoming camera message: a header timestamp and the decoded image
(the decompression and BGRA→gray conversion are external collaborators). -/
structure Msg where
  timestamp : ℚ
  img : Image
deriving DecidableEq, Repr

/-- `rgb = 255 - rgb` in `camera_callback` (uint8 pixel inversion). -/
def invert (img : Image) : Image :=
  img.map (fun row => row.map (fun v => 255 - v))

/-- The frame appended by `camera_callback`:
`{'timestamp': float_time, 'rgb': rgb[:, :]}` after inversion. -/
def mkFrame (m : Msg) : Frame :=
  { timestamp := m.timestamp, rgb := invert m.img }

/-- A normalized crop box `[[h0, h1], [w0, w1]]`
(`crop_norm[0][0]`, `crop_norm[0][1]`, `crop_norm[1][0]`, `crop_norm[1][1]`). -/
structure CropNorm where
  h0 : ℚ
  h1 : ℚ
  w0 : ℚ
  w1 : ℚ
deriving DecidableEq, Repr

/-- A protocol table entry: (frequency, tolerance, symbol). -/
structure ProtocolEntry where
  frequency : ℚ
  tolerance : ℚ
  symbol : String
deriving DecidableEq, Repr

/-- The node parameters used by the embedded logic
(`~capture_time`, `~DTOL`, `~crop_params`, `~LED_protocol`, `~verbose`). -/
structure Config where
  capture_time : ℚ
  DTOL : ℚ
  cropNormalizedRight : CropNorm
  cropNormalizedFront : CropNorm
  cropNormalizedTL : CropNorm
  LED_protocol : List ProtocolEntry
  verbose : ℕ
deriving DecidableEq, Repr

/-- Python slice `l[a:b]` (step 1) with CPython/numpy index semantics:
negative indices count from the end, all indices are clamped to `[0, len]`. -/
def pySlice {α : Type} (a b : Int) (l : List α) : List α :=
  let n : Int := l.length
  let conv : Int → Nat := fun i => (if i < 0 then max (n + i) 0 else min i n).toNat
  (l.drop (conv a)).take (conv b - conv a)

/-- `LEDDetectorNode.crop_image`: computes pixel bounds by
`floor(height*h0)`, `ceil(height*h1)`, `floor(width*w0)`, `ceil(width*w1)` and
returns `images[h_start:h_end, w_start:w_end, :]` (numpy slicing, which keeps
the whole depth axis and never checks the bounds). -/
def crop_image (images : Volume) (crop_norm : CropNorm) : Volume :=
  let height := images.length
  let width := (images.headD []).length
  let h_start : Int := Rat.floor ((height : ℚ) * crop_norm.h0)
  let h_end : Int := Rat.ceil ((height : ℚ) * crop_norm.h1)
  let w_start : Int := Rat.floor ((width : ℚ) * crop_norm.w0)
  let w_end : Int := Rat.ceil ((width : ℚ) * crop_norm.w1)
  (pySlice h_start h_end images).map (fun row => pySlice w_start w_end row)

/-- The specification's contract for region cropping, stated for comparison
with the implementation: it rejects a normalized box that is inverted or falls
outside `[0, 1]` with a `ConfigurationError` instead of slicing. -/
def crop_image_checked (images : Volume) (crop_norm : CropNorm) :
    Except String Volume :=
  if crop_norm.h0 ≤ crop_norm.h1 ∧ crop_norm.w0 ≤ crop_norm.w1 ∧
     0 ≤ crop_norm.h0 ∧ crop_norm.h1 ≤ 1 ∧ 0 ≤ crop_norm.w0 ∧ crop_norm.w1 ≤ 1
  then Except.ok (crop_image images crop_norm)
  else Except.error "ConfigurationError"

/-- A candidate light source found in a region: 2D position and response. -/
structure Blob where
  x : ℚ
  y : ℚ
  response : ℚ
deriving DecidableEq, Repr

/-- Modelled from the spec: the `LEDDetector` strategy object
(module `led_detection.LED_detector`, whose source is not in this snapshot).
`find_blobs` is the pluggable blob/keypoint detector of §4.3, contracted to be
a deterministic function of the cropped volume and the region class
(`"car"` or `"tl"`); `core` is the frequency-analysis and matching part of
`interpret_signal` (§4.4 steps 1–5 past the guards), likewise a deterministic
function of the blobs, the sampling interval `t_s` and the frame count. -/
structure Detector where
  find_blobs : Volume → String → List Blob
  core : List Blob → ℚ → ℕ → String

/-- Highest configured protocol frequency. -/
def maxProtocolFreq (table : List ProtocolEntry) : ℚ :=
  (table.map (fun e => e.frequency)).foldr max 0

/-- Modelled from the spec: `LEDDetector.interpret_signal(blobs, t_s, num_img)`
(not in this snapshot). §4.1: with fewer than 2 captured frames it still runs
but reports `"UNKNOWN"` (insufficient samples); §4.4 Nyquist guard: if the
sampling rate `num_img / capture_time` is below twice the highest configured
protocol frequency the result is forced to `"UNKNOWN"`; otherwise the
frequency-analysis core decides the symbol. -/
def interpret_signal (d : Detector) (cfg : Config) (blobs : List Blob)
    (t_s : ℚ) (num_img : ℕ) : String :=
  if num_img < 2 then "UNKNOWN"
  else if (num_img : ℚ) / cfg.capture_time < 2 * maxProtocolFreq cfg.LED_protocol
  then "UNKNOWN"
  else d.core blobs t_s num_img

/-- The stacked numpy volume of `process_and_publish`:
`images[:, :, i] = data[i]['rgb']`, with `h, w = data[0]['rgb'].shape`. -/
def stack (data : List Frame) : Volume :=
  match data with
  | [] => []
  | f0 :: _ =>
      (List.range f0.rgb.length).map fun r =>
        (List.range (f0.rgb.headD []).length).map fun c =>
          data.map fun f => ((f.rgb.getD r []).getD c 0)

/-- The per-window detection outcome published as a `SignalsDetection`
message (fields `front`, `right`, `left`, `traffic_light_state`). -/
structure Results where
  right : String
  front : String
  traffic_light : String
  left : String
deriving DecidableEq, Repr

/-- The pure content of `LEDDetectorNode.process_and_publish`: stacks the
buffered frames, crops the three regions, extracts blobs, and classifies each
region with sampling interval `t_s = capture_time / num_img`; the `left`
field is set to the constant `"UNKNOWN"`. `none` models the `IndexError`
raised by `self.data[0]` when the buffer is empty. -/
def process (d : Detector) (cfg : Config) (data : List Frame) :
    Option Results :=
  match data with
  | [] => none
  | _ =>
      let num_img := data.length
      let images := stack data
      let img_right := crop_image images cfg.cropNormalizedRight
      let img_front := crop_image images cfg.cropNormalizedFront
      let img_tl := crop_image images cfg.cropNormalizedTL
      let blobs_right := d.find_blobs img_right "car"
      let blobs_front := d.find_blobs img_front "car"
      let blobs_tl := d.find_blobs img_tl "tl"
      let t_s := (1 * cfg.capture_time) / (1 * (num_img : ℚ))
      some
        { right := interpret_signal d cfg blobs_right t_s num_img
          front := interpret_signal d cfg blobs_front t_s num_img
          traffic_light := interpret_signal d cfg blobs_tl t_s num_img
          left := "UNKNOWN" }

/-- The mutable node state touched by `camera_callback` and
`process_and_publish`. `subscribed` mirrors whether `self.sub_cam` is
registered (frames are only delivered while it is); `processing` is true
between `self.sub_cam.unregister()` and the re-subscription at the end of
`process_and_publish`; `results` is the last published `SignalsDetection`. -/
structure NodeState where
  first_timestamp : ℚ
  capture_finished : Bool
  trigger : Bool
  node_state : ℕ
  data : List Frame
  subscribed : Bool
  processing : Bool
  results : Option Results
deriving DecidableEq, Repr

/-- The state after `LEDDetectorNode.__init__`. -/
def initState : NodeState :=
  { first_timestamp := 0
    capture_finished := true
    trigger := true
    node_state := 0
    data := []
    subscribed := true
    processing := false
    results := none }

/-- `LEDDetectorNode.camera_callback`, up to and including the entry into
processing: the trigger branch re-arms the window, the capture branch appends
the frame while `rel_time < capture_time`, and the processing branch marks the
capture finished, resets `first_timestamp` and unregisters the camera
subscription (processing itself completes with `finishProcessing`). -/
def camera_callback (cfg : Config) (s : NodeState) (m : Msg) : NodeState :=
  let float_time := m.timestamp
  let s1 :=
    if s.trigger then
      { s with trigger := false
               data := []
               capture_finished := false
               first_timestamp := m.timestamp }
    else if s.capture_finished then
      { s with node_state := 0 }
    else s
  if 0 < s1.first_timestamp then
    let rel_time := float_time - s1.first_timestamp
    if rel_time < cfg.capture_time then
      { s1 with node_state := 1, data := s1.data ++ [mkFrame m] }
    else if s1.capture_finished = false ∧ 0 < s1.first_timestamp then
      { s1 with node_state := 2
                capture_finished := true
                first_timestamp := 0
                subscribed := false
                processing := true }
    else s1
  else s1

/-- The tail of `process_and_publish`: the detection results are computed from
the buffered frames and published, `self.trigger` is reset to `True` and the
camera subscription is re-created. -/
def finishProcessing (d : Detector) (cfg : Config) (s : NodeState) :
    NodeState :=
  if s.processing then
    { s with results := process d cfg s.data
             trigger := true
             subscribed := true
             processing := false }
  else s

/-- External events: a camera frame delivery, or the completion of the
synchronous processing section. -/
inductive Event where
  | frame (m : Msg)
  | finish
deriving DecidableEq, Repr

/-- One step of the node: a delivered frame reaches `camera_callback` only
while the subscription is registered (otherwise it is dropped by the
middleware), and `finish` closes an open processing section. -/
def step (d : Detector) (cfg : Config) (s : NodeState) : Event → NodeState
  | Event.frame m => if s.subscribed then camera_callback cfg s m else s
  | Event.finish => finishProcessing d cfg s

/-- Run the node from a state through a list of events. -/
def run (d : Detector) (cfg : Config) (s : NodeState) (es : List Event) :
    NodeState :=
  es.foldl (step d cfg) s

/-- Timestamp positivity of an event (frames carry positive stamps). -/
def eventPos : Event → Bool
  | Event.frame m => decide (0 < m.timestamp)
  | Event.finish => true

/-- The state-machine invariant behind the safety of `self.data[0]`:
while a capture is open the buffer is non-empty, and whenever the node is
inside its processing section the buffer is non-empty. -/
def Inv (s : NodeState) : Prop :=
  (s.trigger = false → s.capture_finished = false → s.data ≠ []) ∧
  (s.processing = true → s.data ≠ [])

/-! ### Concrete sample inputs used by the witnesses -/

/-- A sample detector strategy (no blobs found, no-signal core). -/
def d0 : Detector :=
  { find_blobs := fun _ _ => []
    core := fun _ _ _ => "NO_SIGNAL" }

/-- A sample configuration: 1 s window, full-image crops, a 5 Hz protocol. -/
def cfg0 : Config :=
  { capture_time := 1
    DTOL := 5
    cropNormalizedRight := { h0 := 0, h1 := 1, w0 := 0, w1 := 1 }
    cropNormalizedFront := { h0 := 0, h1 := 1, w0 := 0, w1 := 1 }
    cropNormalizedTL := { h0 := 0, h1 := 1, w0 := 0, w1 := 1 }
    LED_protocol := [{ frequency := 5, tolerance := 1, symbol := "SIGNAL_A" }]
    verbose := 0 }

/-- A sample 2×2 image. -/
def img0 : Image := [[10, 20], [30, 40]]

/-- Sample frames (equal shapes, increasing stamps). -/
def frame1 : Frame := { timestamp := 1, rgb := img0 }

def frame2 : Frame := { timestamp := 5/4, rgb := img0 }

def frame3 : Frame := { timestamp := 3/2, rgb := img0 }

/-- The all-`"UNKNOWN"` outcome. -/
def r0unk : Results :=
  { right := "UNKNOWN", front := "UNKNOWN", traffic_light := "UNKNOWN",
    left := "UNKNOWN" }

/-- Sample camera messages. -/
def msg1 : Msg := { timestamp := 1, img := img0 }

def msg2 : Msg := { timestamp := 5/4, img := img0 }

def msg3 : Msg := { timestamp := 3, img := img0 }

/-- A sample state inside the processing section. -/
def s0proc : NodeState :=
  { first_timestamp := 0
    capture_finished := true
    trigger := false
    node_state := 2
    data := [frame1]
    subscribed := false
    processing := true
    results := none }

/-- The same window as `s0proc` with different incidental state. -/
def s1proc : NodeState :=
  { first_timestamp := 0
    capture_finished := true
    trigger := false
    node_state := 7
    data := [frame1]
    subscribed := false
    processing := true
    results := some r0unk }

/-- A sample state in the middle of a capture. -/
def sCap : NodeState :=
  { first_timestamp := 1
    capture_finished := false
    trigger := false
    node_state := 1
    data := [frame1]
    subscribed := true
    processing := false
    results := none }

/-- A 4-row, 1-column, depth-1 sample volume. -/
def vol4 : Volume := [[[1]], [[2]], [[3]], [[4]]]

/-- An inverted normalized crop box (`h0 > h1`). -/
def cropInv : CropNorm := { h0 := 3/4, h1 := 1/4, w0 := 0, w1 := 1 }

/-- A 4-row, 2-column, depth-1 sample volume. -/
def vol42 : Volume :=
  [[[1], [2]], [[3], [4]], [[5], [6]], [[7], [8]]]

/-- An in-range crop box for `vol42`. -/
def cropMid : CropNorm := { h0 := 1/4, h1 := 3/4, w0 := 0, w1 := 1/2 }

/-! ### Theorems -/

/-- `Rat.floor` agrees with the mathematical floor. -/
theorem ratFloor_eq (q : ℚ) : ⌊q⌋ = q.floor := by
  rw [Rat.floor_def]
  exact (Rat.floor_def' q).symm

/-- `Rat.ceil` agrees with the mathematical ceiling. -/
theorem ratCeil_eq (q : ℚ) : ⌈q⌉ = q.ceil := by
  by_cases h : q.den = 1
  · have hq : (q.num : ℚ) = q := Rat.coe_int_num_of_den_eq_one h
    have h2 : q.ceil = q.num := by unfold Rat.ceil; rw [if_pos h]
    rw [h2]
    conv_lhs => rw [← hq]
    exact Int.ceil_intCast q.num
  · have h2 : q.ceil = q.num / q.den + 1 := by unfold Rat.ceil; rw [if_neg h]
    rw [h2, ← Rat.floor_def, Int.ceil_eq_iff]
    constructor
    · push_cast
      have hle : (⌊q⌋ : ℚ) ≤ q := Int.floor_le q
      have hne : ((⌊q⌋ : ℚ)) ≠ q := fun he => h (he ▸ Rat.den_intCast ⌊q⌋)
      have hlt := lt_of_le_of_ne hle hne
      linarith
    · push_cast
      have hlt := Int.lt_floor_add_one q
      linarith

/-- `pySlice` with in-range non-negative indices is the plain drop/take
slice. -/
theorem pySlice_of_nonneg {α : Type} (a b : Int) (l : List α)
    (ha : 0 ≤ a) (hb : 0 ≤ b) (han : a ≤ (l.length : Int))
    (hbn : b ≤ (l.length : Int)) :
    pySlice a b l = (l.drop a.toNat).take (b.toNat - a.toNat) := by
  simp only [pySlice]
  rw [if_neg (not_lt.mpr ha), if_neg (not_lt.mpr hb),
    min_eq_left han, min_eq_left hbn]

/-- Floor and ceiling pixel bounds computed from a normalized coordinate in
`[0, 1]` stay inside `[0, n]`. -/
theorem cropBound (n : ℕ) (x : ℚ) (hx0 : 0 ≤ x) (hx1 : x ≤ 1) :
    0 ≤ ⌊(n : ℚ) * x⌋ ∧ ⌊(n : ℚ) * x⌋ ≤ (n : Int) ∧
      0 ≤ ⌈(n : ℚ) * x⌉ ∧ ⌈(n : ℚ) * x⌉ ≤ (n : Int) := by
  have h0 : (0 : ℚ) ≤ (n : ℚ) * x := mul_nonneg (Nat.cast_nonneg n) hx0
  have h1 : (n : ℚ) * x ≤ (n : ℚ) := by
    calc (n : ℚ) * x ≤ (n : ℚ) * 1 :=
          mul_le_mul_of_nonneg_left hx1 (Nat.cast_nonneg n)
      _ = (n : ℚ) := mul_one _
  refine ⟨Int.floor_nonneg.mpr h0, ?_, Int.ceil_nonneg h0, ?_⟩
  · calc ⌊(n : ℚ) * x⌋ ≤ ⌊(n : ℚ)⌋ := Int.floor_le_floor h1
      _ = (n : Int) := Int.floor_natCast n
  · exact Int.ceil_le.mpr (by exact_mod_cast h1)

/-- C6: for a stacked volume of height `H` and width `W` and a region whose
normalized box lies in `[0, 1]`, the crop is exactly the slice with row range
`[⌊H*h0⌋, ⌈H*h1⌉)` and column range `[⌊W*w0⌋, ⌈W*w1⌉)`, with the depth axis
(the per-frame samples) untouched. -/
theorem crop_image_slice (images : Volume) (crop : CropNorm)
    (hrect : ∀ row ∈ images, row.length = (images.headD []).length)
    (hh00 : 0 ≤ crop.h0) (hh01 : crop.h0 ≤ 1)
    (hh10 : 0 ≤ crop.h1) (hh11 : crop.h1 ≤ 1)
    (hw00 : 0 ≤ crop.w0) (hw01 : crop.w0 ≤ 1)
    (hw10 : 0 ≤ crop.w1) (hw11 : crop.w1 ≤ 1) :
    crop_image images crop =
      ((images.drop (⌊(images.length : ℚ) * crop.h0⌋).toNat).take
          ((⌈(images.length : ℚ) * crop.h1⌉).toNat -
            (⌊(images.length : ℚ) * crop.h0⌋).toNat)).map
        (fun row =>
          (row.drop (⌊((images.headD []).length : ℚ) * crop.w0⌋).toNat).take
            ((⌈((images.headD []).length : ℚ) * crop.w1⌉).toNat -
              (⌊((images.headD []).length : ℚ) * crop.w0⌋).toNat)) := by
  simp only [crop_image, ← ratFloor_eq, ← ratCeil_eq]
  rw [pySlice_of_nonneg _ _ images
    (cropBound images.length crop.h0 hh00 hh01).1
    (cropBound images.length crop.h1 hh10 hh11).2.2.1
    (cropBound images.length crop.h0 hh00 hh01).2.1
    (cropBound images.length crop.h1 hh10 hh11).2.2.2]
  refine List.map_congr_left ?_
  intro row hrow
  have hmem : row ∈ images := List.mem_of_mem_drop (List.mem_of_mem_take hrow)
  have hW : row.length = (images.headD []).length := hrect row hmem
  rw [pySlice_of_nonneg _ _ row
    (cropBound (images.headD []).length crop.w0 hw00 hw01).1
    (cropBound (images.headD []).length crop.w1 hw10 hw11).2.2.1
    (by rw [hW]
        exact (cropBound (images.headD []).length crop.w0 hw00 hw01).2.1)
    (by rw [hW]
        exact (cropBound (images.headD []).length crop.w1 hw10 hw11).2.2.2)]

/-- Witness for C6 on a concrete 4×2×1 volume and the box
`[[1/4, 3/4], [0, 1/2]]`. -/
theorem crop_image_slice_witness :
    crop_image vol42 cropMid =
      ((vol42.drop (⌊(vol42.length : ℚ) * cropMid.h0⌋).toNat).take
          ((⌈(vol42.length : ℚ) * cropMid.h1⌉).toNat -
            (⌊(vol42.length : ℚ) * cropMid.h0⌋).toNat)).map
        (fun row =>
          (row.drop (⌊((vol42.headD []).length : ℚ) * cropMid.w0⌋).toNat).take
            ((⌈((vol42.headD []).length : ℚ) * cropMid.w1⌉).toNat -
              (⌊((vol42.headD []).length : ℚ) * cropMid.w0⌋).toNat)) :=
  crop_image_slice vol42 cropMid (by decide)
    (by with_unfolding_all decide) (by with_unfolding_all decide)
    (by with_unfolding_all decide) (by with_unfolding_all decide)
    (by with_unfolding_all decide) (by with_unfolding_all decide)
    (by with_unfolding_all decide) (by with_unfolding_all decide)

/-- C2 counterexample: on an inverted normalized box (`h0 = 3/4 > h1 = 1/4`)
the specification's checked crop reports a configuration error, but
`crop_image` raises nothing and returns a (here empty) volume: the code
performs no bounds validation at all. -/
theorem crop_error_counterexample :
    crop_image_checked vol4 cropInv = Except.error "ConfigurationError" ∧
      crop_image vol4 cropInv = ([] : Volume) := by
  constructor
  · with_unfolding_all rfl
  · with_unfolding_all rfl

/-- C2 (amended): `crop_image` never reports inverted or out-of-image bounds:
out-of-range pixel indices are clamped by Python slice semantics, and when the
computed row bounds cross (`⌈H*h1⌉ ≤ ⌊H*h0⌋`, as for the sample inverted box)
it silently returns the empty volume instead of failing. -/
theorem crop_inverted_silently_empty (images : Volume) (crop : CropNorm)
    (hh0 : 0 ≤ crop.h0) (hh1 : 0 ≤ crop.h1)
    (hcross : ⌈(images.length : ℚ) * crop.h1⌉ ≤
      ⌊(images.length : ℚ) * crop.h0⌋) :
    crop_image images crop = [] := by
  simp only [crop_image, ← ratFloor_eq, ← ratCeil_eq]
  have ha : (0 : Int) ≤ ⌊(images.length : ℚ) * crop.h0⌋ :=
    Int.floor_nonneg.mpr (mul_nonneg (Nat.cast_nonneg _) hh0)
  have hb : (0 : Int) ≤ ⌈(images.length : ℚ) * crop.h1⌉ :=
    Int.ceil_nonneg (mul_nonneg (Nat.cast_nonneg _) hh1)
  have hs : pySlice ⌊(images.length : ℚ) * crop.h0⌋
      ⌈(images.length : ℚ) * crop.h1⌉ images = [] := by
    simp only [pySlice]
    rw [if_neg (not_lt.mpr ha), if_neg (not_lt.mpr hb)]
    have hle : (min ⌈(images.length : ℚ) * crop.h1⌉
          ((images.length : ℕ) : Int)).toNat ≤
        (min ⌊(images.length : ℚ) * crop.h0⌋ ((images.length : ℕ) : Int)).toNat :=
      Int.toNat_le_toNat (min_le_min hcross (le_refl _))
    rw [Nat.sub_eq_zero_of_le hle, List.take_zero]
  rw [hs]
  rfl

/-- Witness for the amended C2 at the concrete inverted box. -/
theorem crop_inverted_silently_empty_witness :
    crop_image vol4 cropInv = [] :=
  crop_inverted_silently_empty vol4 cropInv
    (by with_unfolding_all decide) (by with_unfolding_all decide)
    (by with_unfolding_all decide)

/-- C9: in every emitted detection result, the `left` field is the constant
string `"UNKNOWN"`, independently of the captured frames, the configuration
and the detector. -/
theorem left_always_unknown (d : Detector) (cfg : Config) (data : List Frame)
    (r : Results) (h : process d cfg data = some r) : r.left = "UNKNOWN" := by
  cases data with
  | nil => simp [process] at h
  | cons f fs =>
      simp only [process, Option.some.injEq] at h
      subst h
      rfl

/-- Witness for C9 at a concrete one-frame window. -/
theorem left_always_unknown_witness : r0unk.left = "UNKNOWN" :=
  left_always_unknown d0 cfg0 [frame1] r0unk (by with_unfolding_all decide)

/-- C7: the sampling interval handed to the signal classifier for each region
is `capture_time / num_img` where `num_img` is the number of frames actually
retained in the processed window. -/
theorem sampling_interval_eq (d : Detector) (cfg : Config) (data : List Frame)
    (h : data ≠ []) :
    process d cfg data = some
      { right := interpret_signal d cfg
          (d.find_blobs (crop_image (stack data) cfg.cropNormalizedRight) "car")
          (cfg.capture_time / (data.length : ℚ)) data.length
        front := interpret_signal d cfg
          (d.find_blobs (crop_image (stack data) cfg.cropNormalizedFront) "car")
          (cfg.capture_time / (data.length : ℚ)) data.length
        traffic_light := interpret_signal d cfg
          (d.find_blobs (crop_image (stack data) cfg.cropNormalizedTL) "tl")
          (cfg.capture_time / (data.length : ℚ)) data.length
        left := "UNKNOWN" } := by
  cases data with
  | nil => exact absurd rfl h
  | cons f fs => simp [process, one_mul]

/-- Witness for C7 at a concrete one-frame window. -/
theorem sampling_interval_eq_witness :
    process d0 cfg0 [frame1] = some
      { right := interpret_signal d0 cfg0
          (d0.find_blobs (crop_image (stack [frame1]) cfg0.cropNormalizedRight)
            "car")
          (cfg0.capture_time / (([frame1] : List Frame).length : ℚ))
          ([frame1] : List Frame).length
        front := interpret_signal d0 cfg0
          (d0.find_blobs (crop_image (stack [frame1]) cfg0.cropNormalizedFront)
            "car")
          (cfg0.capture_time / (([frame1] : List Frame).length : ℚ))
          ([frame1] : List Frame).length
        traffic_light := interpret_signal d0 cfg0
          (d0.find_blobs (crop_image (stack [frame1]) cfg0.cropNormalizedTL)
            "tl")
          (cfg0.capture_time / (([frame1] : List Frame).length : ℚ))
          ([frame1] : List Frame).length
        left := "UNKNOWN" } :=
  sampling_interval_eq d0 cfg0 [frame1] (by simp)

/-- C4: whenever the effective sampling rate `num_img / capture_time` is below
twice the highest configured protocol frequency, every region of the emitted
result is classified `"UNKNOWN"`, for every detector strategy. -/
theorem nyquist_forces_unknown (d : Detector) (cfg : Config)
    (data : List Frame) (r : Results)
    (hrate : ((data.length : ℚ)) / cfg.capture_time <
      2 * maxProtocolFreq cfg.LED_protocol)
    (h : process d cfg data = some r) :
    r.right = "UNKNOWN" ∧ r.front = "UNKNOWN" ∧
      r.traffic_light = "UNKNOWN" := by
  cases data with
  | nil => simp [process] at h
  | cons f fs =>
      simp only [process, Option.some.injEq] at h
      subst h
      refine ⟨?_, ?_, ?_⟩ <;>
        · show interpret_signal _ _ _ _ _ = _
          unfold interpret_signal
          rw [if_pos hrate, ite_self]

/-- Witness for C4: three frames in one second against a 5 Hz protocol
(rate 3 Hz < 10 Hz). -/
theorem nyquist_forces_unknown_witness :
    r0unk.right = "UNKNOWN" ∧ r0unk.front = "UNKNOWN" ∧
      r0unk.traffic_light = "UNKNOWN" :=
  nyquist_forces_unknown d0 cfg0 [frame1, frame2, frame3] r0unk
    (by with_unfolding_all decide) (by with_unfolding_all decide)

/-- C8: a degenerate window of a single captured frame is still processed to
completion (a result is produced, no exception) and every region is reported
`"UNKNOWN"`. -/
theorem degenerate_window_unknown (d : Detector) (cfg : Config)
    (data : List Frame) (hlt : data.length < 2) (hne : data ≠ []) :
    ∃ r, process d cfg data = some r ∧ r.right = "UNKNOWN" ∧
      r.front = "UNKNOWN" ∧ r.traffic_light = "UNKNOWN" ∧
      r.left = "UNKNOWN" := by
  cases data with
  | nil => exact absurd rfl hne
  | cons f fs =>
      cases fs with
      | nil => exact ⟨_, rfl, rfl, rfl, rfl, rfl⟩
      | cons g gs =>
          exact absurd hlt (by simp only [List.length_cons]; omega)

/-- Witness for C8 at a concrete one-frame window. -/
theorem degenerate_window_unknown_witness :
    ∃ r, process d0 cfg0 [frame1] = some r ∧ r.right = "UNKNOWN" ∧
      r.front = "UNKNOWN" ∧ r.traffic_light = "UNKNOWN" ∧
      r.left = "UNKNOWN" :=
  degenerate_window_unknown d0 cfg0 [frame1] (by simp) (by simp)

/-- C5: processing is deterministic in the captured window: two runs from
node states holding the same buffered frames publish identical detection
results, whatever the rest of the mutable state is. -/
theorem process_deterministic (d : Detector) (cfg : Config)
    (s t : NodeState) (hdata : s.data = t.data)
    (hs : s.processing = true) (ht : t.processing = true) :
    (step d cfg s Event.finish).results =
      (step d cfg t Event.finish).results := by
  simp [step, finishProcessing, hs, ht, hdata]

/-- Witness for C5: two states with the same window but different incidental
state publish the same results. -/
theorem process_deterministic_witness :
    (step d0 cfg0 s0proc Event.finish).results =
      (step d0 cfg0 s1proc Event.finish).results :=
  process_deterministic d0 cfg0 s0proc s1proc rfl rfl rfl

/-- C1: frames delivered while the node is inside its processing section are
dropped outright — the whole node state, in particular the frame buffer, is
unchanged — and after processing finishes the next window starts from the
first frame delivered afterwards, containing exactly that frame. -/
theorem backpressure_drop (d : Detector) (cfg : Config)
    (hct : 0 < cfg.capture_time) (s : NodeState)
    (hp : s.processing = true) (hsub : s.subscribed = false)
    (ms : List Msg) (m : Msg) (hm : 0 < m.timestamp) :
    run d cfg s (ms.map Event.frame) = s ∧
      (step d cfg (step d cfg (run d cfg s (ms.map Event.frame)) Event.finish)
          (Event.frame m)).data = [mkFrame m] := by
  have hdrop : run d cfg s (ms.map Event.frame) = s := by
    induction ms with
    | nil => rfl
    | cons mm rest ih =>
        have h1 : step d cfg s (Event.frame mm) = s := by
          simp [step, hsub]
        simpa [run, h1] using ih
  refine ⟨hdrop, ?_⟩
  rw [hdrop]
  have h2 : step d cfg s Event.finish =
      { s with results := process d cfg s.data, trigger := true,
               subscribed := true, processing := false } := by
    simp [step, finishProcessing, hp]
  rw [h2]
  simp [step, camera_callback, hm, hct, sub_self]

/-- Witness for C1: a frame arriving mid-processing is dropped and the next
window starts at the first frame after `finish`. -/
theorem backpressure_drop_witness :
    run d0 cfg0 s0proc ([msg2].map Event.frame) = s0proc ∧
      (step d0 cfg0
          (step d0 cfg0 (run d0 cfg0 s0proc ([msg2].map Event.frame))
            Event.finish)
          (Event.frame msg3)).data = [mkFrame msg3] :=
  backpressure_drop d0 cfg0 (by with_unfolding_all decide) s0proc rfl rfl
    [msg2] msg3 (by with_unfolding_all decide)

/-- C3: while capturing, a frame is appended exactly when its relative time
`timestamp - first_timestamp` is below `capture_time`; the first frame at or
past the threshold is not appended — it only switches the node to processing,
and the window that is then processed is the buffer without that frame. -/
theorem capture_append_iff (d : Detector) (cfg : Config)
    (hct : 0 < cfg.capture_time) (s : NodeState) (m : Msg)
    (hsub : s.subscribed = true) (htr : s.trigger = false)
    (hcf : s.capture_finished = false) (hft : 0 < s.first_timestamp) :
    (m.timestamp - s.first_timestamp < cfg.capture_time →
      (step d cfg s (Event.frame m)).data = s.data ++ [mkFrame m]) ∧
    (cfg.capture_time ≤ m.timestamp - s.first_timestamp →
      (step d cfg s (Event.frame m)).data = s.data ∧
      (step d cfg s (Event.frame m)).processing = true ∧
      (step d cfg (step d cfg s (Event.frame m)) Event.finish).results =
        process d cfg s.data) := by
  constructor
  · intro hrel
    simp [step, hsub, camera_callback, htr, hcf, hft, hrel]
  · intro hrel
    have hnot : ¬ (m.timestamp - s.first_timestamp < cfg.capture_time) :=
      not_lt.mpr hrel
    refine ⟨?_, ?_, ?_⟩ <;>
      simp [step, hsub, camera_callback, htr, hcf, hft, hnot,
        finishProcessing]

/-- Witness for C3 at a concrete capturing state and an over-threshold
frame. -/
theorem capture_append_iff_witness :
    (msg3.timestamp - sCap.first_timestamp < cfg0.capture_time →
      (step d0 cfg0 sCap (Event.frame msg3)).data =
        sCap.data ++ [mkFrame msg3]) ∧
    (cfg0.capture_time ≤ msg3.timestamp - sCap.first_timestamp →
      (step d0 cfg0 sCap (Event.frame msg3)).data = sCap.data ∧
      (step d0 cfg0 sCap (Event.frame msg3)).processing = true ∧
      (step d0 cfg0 (step d0 cfg0 sCap (Event.frame msg3))
          Event.finish).results = process d0 cfg0 sCap.data) :=
  capture_append_iff d0 cfg0 (by with_unfolding_all decide) sCap msg3
    rfl rfl rfl (by with_unfolding_all decide)

/-- The invariant holds initially. -/
theorem inv_initState : Inv initState := by
  constructor
  · intro h1
    simp [initState] at h1
  · intro h2
    simp [initState] at h2

/-- The invariant is preserved by every step whose frames carry positive
timestamps, given a positive capture time. -/
theorem inv_step (d : Detector) (cfg : Config) (hct : 0 < cfg.capture_time)
    (s : NodeState) (e : Event) (he : eventPos e = true) (h : Inv s) :
    Inv (step d cfg s e) := by
  cases e with
  | finish =>
      simp only [step, finishProcessing]
      by_cases hp : s.processing = true
      · rw [if_pos hp]
        exact ⟨fun h1 _ => by simp at h1, fun h2 => by simp at h2⟩
      · rw [if_neg hp]
        exact h
  | frame m =>
      have hm : 0 < m.timestamp := by simpa [eventPos] using he
      simp only [step]
      by_cases hsub : s.subscribed = true
      · rw [if_pos hsub]
        by_cases htr : s.trigger = true
        · constructor
          · intro _ _
            simp [camera_callback, htr, hm, hct]
          · intro _
            simp [camera_callback, htr, hm, hct]
        · have htr2 : s.trigger = false := by simpa using htr
          by_cases hcf : s.capture_finished = true
          · by_cases hft : 0 < s.first_timestamp
            · by_cases hrel :
                  m.timestamp - s.first_timestamp < cfg.capture_time
              · constructor
                · intro _ h2
                  simp [camera_callback, htr2, hcf, hft, hrel] at h2
                · intro _
                  simp [camera_callback, htr2, hcf, hft, hrel]
              · constructor
                · intro _ h2
                  simp [camera_callback, htr2, hcf, hft, hrel] at h2
                · intro h2
                  simp [camera_callback, htr2, hcf, hft, hrel] at h2 ⊢
                  exact h.2 h2
            · constructor
              · intro _ h2
                simp [camera_callback, htr2, hcf, hft] at h2
              · intro h2
                simp [camera_callback, htr2, hcf, hft] at h2 ⊢
                exact h.2 h2
          · have hcf2 : s.capture_finished = false := by simpa using hcf
            have hdat : s.data ≠ [] := h.1 htr2 hcf2
            by_cases hft : 0 < s.first_timestamp
            · by_cases hrel :
                  m.timestamp - s.first_timestamp < cfg.capture_time
              · constructor
                · intro _ _
                  simp [camera_callback, htr2, hcf2, hft, hrel]
                · intro _
                  simp [camera_callback, htr2, hcf2, hft, hrel]
              · constructor
                · intro _ h2
                  simp [camera_callback, htr2, hcf2, hft, hrel] at h2
                · intro _
                  simp [camera_callback, htr2, hcf2, hft, hrel]
                  exact hdat
            · constructor
              · intro _ _
                simpa [camera_callback, htr2, hcf2, hft] using hdat
              · intro h2
                simp [camera_callback, htr2, hcf2, hft] at h2 ⊢
                exact h.2 h2
      · rw [if_neg hsub]
        exact h

/-- C10: along any event trace whose frames carry positive timestamps, with a
positive configured capture time, the frame buffer is non-empty whenever the
node is inside its processing section, so the unguarded `self.data[0]` access
at the start of `process_and_publish` is safe. -/
theorem processing_buffer_nonempty (d : Detector) (cfg : Config)
    (hct : 0 < cfg.capture_time) (es : List Event)
    (hpos : ∀ e ∈ es, eventPos e = true) :
    (run d cfg initState es).processing = true →
      (run d cfg initState es).data ≠ [] := by
  suffices hgen : ∀ (l : List Event), (∀ e ∈ l, eventPos e = true) →
      ∀ t : NodeState, Inv t → Inv (run d cfg t l) by
    exact (hgen es hpos initState inv_initState).2
  intro l
  induction l with
  | nil => intro _ t ht; exact ht
  | cons e rest ih =>
      intro hl t ht
      have h1 : eventPos e = true := hl e (List.mem_cons_self e rest)
      have h2 : ∀ x ∈ rest, eventPos x = true :=
        fun x hx => hl x (List.mem_cons_of_mem e hx)
      have h3 : Inv (step d cfg t e) := inv_step d cfg hct t e h1 ht
      simpa [run] using ih h2 (step d cfg t e) h3

/-- Witness for C10 on a trace that fills and closes one window, reaching the
processing section. -/
theorem processing_buffer_nonempty_witness :
    (run d0 cfg0 initState [Event.frame msg1, Event.frame msg3]).data ≠ [] :=
  processing_buffer_nonempty d0 cfg0 (by with_unfolding_all decide)
    [Event.frame msg1, Event.frame msg3] (by with_unfolding_all decide)
    (by with_unfolding_all decide)

end LEDNode
